import Mathlib

/-!
Verification of the BankViewPro scoring engine.

The definitions below are a shallow embedding of `src/utils/scoring_engine.py`
and of `calculate_liquidity_runway` in `src/views/liquidity.py`, with Python
floats modelled as rationals, pandas-style keyed records modelled as
association lists, and `KeyError` propagation modelled with `Option`.
-/

/-- Threshold/weight configuration for one metric, as in the per-category
`metrics_config` dictionaries of `scoring_engine.py`.  `reverse` defaults to
`false` exactly as `config.get('reverse', False)` does. -/
structure MetricCfg where
  weight : ℚ
  excellent : ℚ
  good : ℚ
  fair : ℚ
  poor : ℚ
  reverse : Bool := false
deriving DecidableEq, Repr

/-- A yearly metric record: a mapping from metric name to numeric value. -/
abbrev Record := List (String × ℚ)

/-- `min(10.0, max(1.0, x))`, the clamp applied by every scorer. -/
def clamp (x : ℚ) : ℚ := min 10 (max 1 x)

/-- The `Higher values are better` if/elif ladder shared by the asset-quality,
profitability and liquidity scorers (worse than `poor` scores a flat 1). -/
def fwdLadder (c : MetricCfg) (v : ℚ) : ℚ :=
  if v ≥ c.excellent then 10
  else if v ≥ c.good then 7 + 3 * (v - c.good) / (c.excellent - c.good)
  else if v ≥ c.fair then 5 + 2 * (v - c.fair) / (c.good - c.fair)
  else if v ≥ c.poor then 2 + 3 * (v - c.poor) / (c.fair - c.poor)
  else 1

/-- The `Lower values are better` if/elif ladder shared by the asset-quality,
profitability and liquidity scorers. -/
def revLadder (c : MetricCfg) (v : ℚ) : ℚ :=
  if v ≤ c.excellent then 10
  else if v ≤ c.good then 7 + 3 * (c.good - v) / (c.good - c.excellent)
  else if v ≤ c.fair then 5 + 2 * (c.fair - v) / (c.fair - c.good)
  else if v ≤ c.poor then 2 + 3 * (c.poor - v) / (c.poor - c.fair)
  else 1

/-- Per-metric scoring in `calculate_asset_quality_score`,
`calculate_profitability_score` and `calculate_liquidity_score`:
dispatch on the `reverse` flag. -/
def scoreMetricStd (c : MetricCfg) (v : ℚ) : ℚ :=
  if c.reverse then revLadder c v else fwdLadder c v

/-- Per-metric scoring in `calculate_capitalization_score`: no `reverse`
dispatch, and the worse-than-poor branch is
`1 + (value / poor) if poor > 0 else 1`. -/
def scoreMetricCap (c : MetricCfg) (v : ℚ) : ℚ :=
  if v ≥ c.excellent then 10
  else if v ≥ c.good then 7 + 3 * (v - c.good) / (c.excellent - c.good)
  else if v ≥ c.fair then 5 + 2 * (v - c.fair) / (c.good - c.fair)
  else if v ≥ c.poor then 2 + 3 * (v - c.poor) / (c.fair - c.poor)
  else if c.poor > 0 then 1 + v / c.poor else 1

/-- The weighted accumulation loop of each category scorer: look up each
metric (a missing key propagates, as a Python `KeyError` would), score it,
multiply by its weight and sum. -/
def categoryTotal (sc : MetricCfg → ℚ → ℚ) (cfg : List (String × MetricCfg))
    (r : Record) : Option ℚ :=
  match cfg with
  | [] => some 0
  | p :: rest =>
    match r.lookup p.1, categoryTotal sc rest r with
    | some v, some t => some (sc p.2 v * p.2.weight + t)
    | _, _ => none

/-- A category scorer: weighted sum of per-metric scores, clamped to [1,10]. -/
def scoreCategory (sc : MetricCfg → ℚ → ℚ) (cfg : List (String × MetricCfg))
    (r : Record) : Option ℚ :=
  (categoryTotal sc cfg r).map clamp

/-- `capital_adequacy_ratio` thresholds. -/
def carCfg : MetricCfg := { weight := 0.35, excellent := 15, good := 12, fair := 10, poor := 8 }

/-- `tier1_ratio` thresholds. -/
def tier1Cfg : MetricCfg := { weight := 0.35, excellent := 12, good := 10, fair := 8, poor := 6 }

/-- `leverage_ratio` thresholds. -/
def levCfg : MetricCfg := { weight := 0.30, excellent := 8, good := 6, fair := 5, poor := 3 }

/-- `metrics_config` of `calculate_capitalization_score`. -/
def capConfig : List (String × MetricCfg) :=
  [("capital_adequacy_ratio", carCfg), ("tier1_ratio", tier1Cfg), ("leverage_ratio", levCfg)]

/-- `npl_ratio` thresholds (reverse). -/
def nplCfg : MetricCfg :=
  { weight := 0.40, excellent := 0.5, good := 1.0, fair := 2.0, poor := 3.0, reverse := true }

/-- `loan_loss_provisions` thresholds (reverse). -/
def llpCfg : MetricCfg :=
  { weight := 0.30, excellent := 0.3, good := 0.5, fair := 1.0, poor := 1.5, reverse := true }

/-- `coverage_ratio` thresholds. -/
def covCfg : MetricCfg := { weight := 0.20, excellent := 120, good := 100, fair := 80, poor := 60 }

/-- `asset_classification` thresholds (reverse). -/
def aclCfg : MetricCfg :=
  { weight := 0.10, excellent := 1, good := 2, fair := 4, poor := 6, reverse := true }

/-- `metrics_config` of `calculate_asset_quality_score`. -/
def assetConfig : List (String × MetricCfg) :=
  [("npl_ratio", nplCfg), ("loan_loss_provisions", llpCfg),
   ("coverage_ratio", covCfg), ("asset_classification", aclCfg)]

/-- `return_on_assets` thresholds. -/
def roaCfg : MetricCfg := { weight := 0.25, excellent := 1.5, good := 1.2, fair := 0.8, poor := 0.4 }

/-- `return_on_equity` thresholds. -/
def roeCfg : MetricCfg := { weight := 0.25, excellent := 15, good := 12, fair := 8, poor := 4 }

/-- `net_interest_margin` thresholds. -/
def nimCfg : MetricCfg := { weight := 0.25, excellent := 4.0, good := 3.5, fair := 2.5, poor := 1.5 }

/-- `cost_to_income_ratio` thresholds (reverse). -/
def ctiCfg : MetricCfg :=
  { weight := 0.15, excellent := 50, good := 60, fair := 70, poor := 80, reverse := true }

/-- `earnings_per_share` thresholds. -/
def epsCfg : MetricCfg := { weight := 0.10, excellent := 10, good := 8, fair := 5, poor := 2 }

/-- `metrics_config` of `calculate_profitability_score`. -/
def profitConfig : List (String × MetricCfg) :=
  [("return_on_assets", roaCfg), ("return_on_equity", roeCfg),
   ("net_interest_margin", nimCfg), ("cost_to_income_ratio", ctiCfg),
   ("earnings_per_share", epsCfg)]

/-- `liquidity_coverage_ratio` thresholds. -/
def lcrCfg : MetricCfg := { weight := 0.35, excellent := 130, good := 120, fair := 110, poor := 100 }

/-- `net_stable_funding_ratio` thresholds. -/
def nsfrCfg : MetricCfg := { weight := 0.35, excellent := 120, good := 110, fair := 105, poor := 100 }

/-- `loan_to_deposit_ratio` thresholds (reverse). -/
def ltdCfg : MetricCfg :=
  { weight := 0.20, excellent := 75, good := 80, fair := 85, poor := 90, reverse := true }

/-- `cash_ratio` thresholds. -/
def cashCfg : MetricCfg := { weight := 0.10, excellent := 12, good := 10, fair := 7, poor := 5 }

/-- `metrics_config` of `calculate_liquidity_score`. -/
def liquidityConfig : List (String × MetricCfg) :=
  [("liquidity_coverage_ratio", lcrCfg), ("net_stable_funding_ratio", nsfrCfg),
   ("loan_to_deposit_ratio", ltdCfg), ("cash_ratio", cashCfg)]

/-- `calculate_capitalization_score` on one record. -/
def calculate_capitalization_score (r : Record) : Option ℚ :=
  scoreCategory scoreMetricCap capConfig r

/-- `calculate_asset_quality_score` on one record. -/
def calculate_asset_quality_score (r : Record) : Option ℚ :=
  scoreCategory scoreMetricStd assetConfig r

/-- `calculate_profitability_score` on one record. -/
def calculate_profitability_score (r : Record) : Option ℚ :=
  scoreCategory scoreMetricStd profitConfig r

/-- `calculate_liquidity_score` on one record. -/
def calculate_liquidity_score (r : Record) : Option ℚ :=
  scoreCategory scoreMetricStd liquidityConfig r

/-- The weighted combination step of `calculate_overall_score` (lines 31-38):
category weights 0.25 / 0.30 / 0.25 / 0.20, clamped to [1,10]. -/
def scoreOverallWeighted (cap asset profit liq : ℚ) : ℚ :=
  clamp (cap * 0.25 + asset * 0.30 + profit * 0.25 + liq * 0.20)

/-- The unweighted combination in `render_overview` (overview.py line 19):
`sum(category_scores.values()) / len(category_scores)`. -/
def scoreOverallMean (cap asset profit liq : ℚ) : ℚ :=
  (cap + asset + profit + liq) / 4

/-- `calculate_overall_score`: takes the bank's historical data, scores the
latest record (`iloc[-1]`) in each category and combines with the category
weights. -/
def calculate_overall_score (bank : List Record) (h : bank ≠ []) : Option ℚ :=
  let latest := bank.getLast h
  (calculate_capitalization_score latest).bind fun c =>
  (calculate_asset_quality_score latest).bind fun a =>
  (calculate_profitability_score latest).bind fun p =>
  (calculate_liquidity_score latest).bind fun l =>
  some (scoreOverallWeighted c a p l)

/-- `calculate_category_scores`: the four category scores of the latest
record, as a tuple (capitalization, asset quality, profitability, liquidity). -/
def calculate_category_scores (bank : List Record) (h : bank ≠ []) :
    Option (ℚ × ℚ × ℚ × ℚ) :=
  let latest := bank.getLast h
  (calculate_capitalization_score latest).bind fun c =>
  (calculate_asset_quality_score latest).bind fun a =>
  (calculate_profitability_score latest).bind fun p =>
  (calculate_liquidity_score latest).bind fun l =>
  some (c, a, p, l)

/-- The rating band returned by `get_score_interpretation`. -/
structure ScoreInterp where
  rating : String
  description : String
  color : String
deriving DecidableEq, Repr

/-- `get_score_interpretation`: descending-threshold table lookup. -/
def get_score_interpretation (score : ℚ) : ScoreInterp :=
  if score ≥ 8.5 then ⟨"AAA", "Excellent Credit Quality", "green"⟩
  else if score ≥ 7.5 then ⟨"AA", "Very Good Credit Quality", "green"⟩
  else if score ≥ 6.5 then ⟨"A", "Good Credit Quality", "blue"⟩
  else if score ≥ 5.5 then ⟨"BBB", "Fair Credit Quality", "orange"⟩
  else if score ≥ 4.5 then ⟨"BB", "Speculative Credit Quality", "orange"⟩
  else if score ≥ 3.5 then ⟨"B", "Highly Speculative", "red"⟩
  else ⟨"CCC", "Poor Credit Quality", "red"⟩

/-- Python `int()` applied to a rational: truncation toward zero. -/
def ratTrunc (q : ℚ) : ℤ := if 0 ≤ q then ⌊q⌋ else ⌈q⌉

/-- `calculate_liquidity_runway` from `views/liquidity.py`: base 30 days,
an LCR adjustment, 5 days per cash-ratio point above/below 8, truncated and
capped to [7, 180]. -/
def calculate_liquidity_runway (latest : Record) : Option ℤ :=
  match latest.lookup "cash_ratio", latest.lookup "liquidity_coverage_ratio" with
  | some cash, some lcr =>
    let base : ℚ := 30
    let lcrAdj : ℚ :=
      if lcr > 130 then 60 else if lcr > 110 then 30 else if lcr > 100 then 0 else -30
    let cashAdj : ℚ := (cash - 8) * 5
    let runway : ℚ := base + lcrAdj + cashAdj
    some (max 7 (min 180 (ratTrunc runway)))
  | _, _ => none

/-- All sixteen metric configurations of the four category scorers, tagged
with whether they are scored by the capitalization scorer (`true`) or by the
standard reverse-aware scorer (`false`). -/
def allMetricConfigs : List (Bool × MetricCfg) :=
  [(true, carCfg), (true, tier1Cfg), (true, levCfg),
   (false, nplCfg), (false, llpCfg), (false, covCfg), (false, aclCfg),
   (false, roaCfg), (false, roeCfg), (false, nimCfg), (false, ctiCfg), (false, epsCfg),
   (false, lcrCfg), (false, nsfrCfg), (false, ltdCfg), (false, cashCfg)]

/-- The per-metric scorer a tagged configuration is subject to. -/
def scoreMetricOf (e : Bool × MetricCfg) (v : ℚ) : ℚ :=
  if e.1 then scoreMetricCap e.2 v else scoreMetricStd e.2 v

/-- Modelled from the spec: `better(a, b)` — "a is at least as favorable
as b" in the metric's direction. -/
def better (c : MetricCfg) (a b : ℚ) : Prop :=
  if c.reverse then a ≤ b else b ≤ a

instance (c : MetricCfg) (a b : ℚ) : Decidable (better c a b) := by
  unfold better; infer_instance

/-- Modelled from the spec: the favorable-direction distance from `b` to `a`. -/
def favDist (c : MetricCfg) (a b : ℚ) : ℚ :=
  if c.reverse then b - a else a - b

/-- Modelled from the spec: the four-segment piecewise-linear scheme of §4.1,
steps 1-4, written in favorable-direction terms; `none` below `poor`, where
the claim under scrutiny specifies nothing. -/
def specChain (c : MetricCfg) (v : ℚ) : Option ℚ :=
  if better c v c.excellent then some 10
  else if better c v c.good then
    some (7 + 3 * favDist c v c.good / favDist c c.excellent c.good)
  else if better c v c.fair then
    some (5 + 2 * favDist c v c.fair / favDist c c.good c.fair)
  else if better c v c.poor then
    some (2 + 3 * favDist c v c.poor / favDist c c.fair c.poor)
  else none

/-- A record with every metric of the four categories at its `excellent`
breakpoint, used as a concrete witness input. -/
def sampleRecord : Record :=
  [("capital_adequacy_ratio", 15), ("tier1_ratio", 12), ("leverage_ratio", 8),
   ("npl_ratio", 0.5), ("loan_loss_provisions", 0.3), ("coverage_ratio", 120),
   ("asset_classification", 1),
   ("return_on_assets", 1.5), ("return_on_equity", 15), ("net_interest_margin", 4.0),
   ("cost_to_income_ratio", 50), ("earnings_per_share", 10),
   ("liquidity_coverage_ratio", 130), ("net_stable_funding_ratio", 120),
   ("loan_to_deposit_ratio", 75), ("cash_ratio", 12)]

section FwdLadder

variable {c : MetricCfg} {v w : ℚ}

lemma fwdLadder_le_ten (hp : c.poor < c.fair) (hf : c.fair < c.good)
    (hg : c.good < c.excellent) (v : ℚ) : fwdLadder c v ≤ 10 := by
  unfold fwdLadder
  split_ifs <;>
    first
    | linarith
    | { have h5 : 3 * (v - c.good) / (c.excellent - c.good) ≤ 3 :=
          (div_le_iff₀ (by linarith)).mpr (by linarith)
        linarith }
    | { have h5 : 2 * (v - c.fair) / (c.good - c.fair) ≤ 2 :=
          (div_le_iff₀ (by linarith)).mpr (by linarith)
        linarith }
    | { have h5 : 3 * (v - c.poor) / (c.fair - c.poor) ≤ 3 :=
          (div_le_iff₀ (by linarith)).mpr (by linarith)
        linarith }

lemma fwdLadder_ge_seven (hg : c.good < c.excellent) (h : c.good ≤ v) :
    7 ≤ fwdLadder c v := by
  unfold fwdLadder
  split_ifs <;>
    first
    | linarith
    | { have h5 : 0 ≤ 3 * (v - c.good) / (c.excellent - c.good) :=
          div_nonneg (by linarith) (by linarith)
        linarith }

lemma fwdLadder_le_seven (hp : c.poor < c.fair) (hf : c.fair < c.good)
    (hg : c.good < c.excellent) (h : v ≤ c.good) : fwdLadder c v ≤ 7 := by
  unfold fwdLadder
  split_ifs <;>
    first
    | linarith
    | { have h5 : 3 * (v - c.good) / (c.excellent - c.good) ≤ 0 :=
          (div_le_iff₀ (by linarith)).mpr (by linarith)
        linarith }
    | { have h5 : 2 * (v - c.fair) / (c.good - c.fair) ≤ 2 :=
          (div_le_iff₀ (by linarith)).mpr (by linarith)
        linarith }
    | { have h5 : 3 * (v - c.poor) / (c.fair - c.poor) ≤ 3 :=
          (div_le_iff₀ (by linarith)).mpr (by linarith)
        linarith }

lemma fwdLadder_ge_five (hf : c.fair < c.good) (hg : c.good < c.excellent)
    (h : c.fair ≤ v) : 5 ≤ fwdLadder c v := by
  unfold fwdLadder
  split_ifs <;>
    first
    | linarith
    | { have h5 : 0 ≤ 3 * (v - c.good) / (c.excellent - c.good) :=
          div_nonneg (by linarith) (by linarith)
        linarith }
    | { have h5 : 0 ≤ 2 * (v - c.fair) / (c.good - c.fair) :=
          div_nonneg (by linarith) (by linarith)
        linarith }

lemma fwdLadder_le_five (hp : c.poor < c.fair) (hf : c.fair < c.good)
    (hg : c.good < c.excellent) (h : v ≤ c.fair) : fwdLadder c v ≤ 5 := by
  unfold fwdLadder
  split_ifs <;>
    first
    | linarith
    | { have h5 : 2 * (v - c.fair) / (c.good - c.fair) ≤ 0 :=
          (div_le_iff₀ (by linarith)).mpr (by linarith)
        linarith }
    | { have h5 : 3 * (v - c.poor) / (c.fair - c.poor) ≤ 3 :=
          (div_le_iff₀ (by linarith)).mpr (by linarith)
        linarith }

lemma fwdLadder_ge_two (hp : c.poor < c.fair) (hf : c.fair < c.good)
    (hg : c.good < c.excellent) (h : c.poor ≤ v) : 2 ≤ fwdLadder c v := by
  unfold fwdLadder
  split_ifs <;>
    first
    | linarith
    | { have h5 : 0 ≤ 3 * (v - c.good) / (c.excellent - c.good) :=
          div_nonneg (by linarith) (by linarith)
        linarith }
    | { have h5 : 0 ≤ 2 * (v - c.fair) / (c.good - c.fair) :=
          div_nonneg (by linarith) (by linarith)
        linarith }
    | { have h5 : 0 ≤ 3 * (v - c.poor) / (c.fair - c.poor) :=
          div_nonneg (by linarith) (by linarith)
        linarith }

lemma fwdLadder_le_two (hp : c.poor < c.fair) (hf : c.fair < c.good)
    (hg : c.good < c.excellent) (h : v ≤ c.poor) : fwdLadder c v ≤ 2 := by
  unfold fwdLadder
  split_ifs <;>
    first
    | linarith
    | { have h5 : 3 * (v - c.poor) / (c.fair - c.poor) ≤ 0 :=
          (div_le_iff₀ (by linarith)).mpr (by linarith)
        linarith }

lemma fwdLadder_eval_exc (h : c.excellent ≤ v) : fwdLadder c v = 10 := by
  unfold fwdLadder
  split_ifs <;> first | rfl | linarith

lemma fwdLadder_eval_good (hg : c.good < c.excellent) (h : c.good ≤ v)
    (h' : v < c.excellent) :
    fwdLadder c v = 7 + 3 * (v - c.good) / (c.excellent - c.good) := by
  unfold fwdLadder
  split_ifs <;> first | rfl | linarith

lemma fwdLadder_eval_fair (hf : c.fair < c.good) (hg : c.good < c.excellent)
    (h : c.fair ≤ v) (h' : v < c.good) :
    fwdLadder c v = 5 + 2 * (v - c.fair) / (c.good - c.fair) := by
  unfold fwdLadder
  split_ifs <;> first | rfl | linarith

lemma fwdLadder_eval_poor (hp : c.poor < c.fair) (hf : c.fair < c.good)
    (hg : c.good < c.excellent) (h : c.poor ≤ v) (h' : v < c.fair) :
    fwdLadder c v = 2 + 3 * (v - c.poor) / (c.fair - c.poor) := by
  unfold fwdLadder
  split_ifs <;> first | rfl | linarith

lemma fwdLadder_eval_bot (hp : c.poor < c.fair) (hf : c.fair < c.good)
    (hg : c.good < c.excellent) (h : v < c.poor) : fwdLadder c v = 1 := by
  unfold fwdLadder
  split_ifs <;> first | rfl | linarith

lemma fwdLadder_mono (hp : c.poor < c.fair) (hf : c.fair < c.good)
    (hg : c.good < c.excellent) (hvw : v ≤ w) : fwdLadder c v ≤ fwdLadder c w := by
  rcases le_or_lt c.excellent w with hw | hw
  · rw [fwdLadder_eval_exc hw]
    exact fwdLadder_le_ten hp hf hg v
  rcases le_or_lt c.good w with hw2 | hw2
  · rcases le_or_lt c.good v with hv2 | hv2
    · rw [fwdLadder_eval_good hg hv2 (lt_of_le_of_lt hvw hw),
        fwdLadder_eval_good hg hw2 hw]
      have h5 : 3 * (v - c.good) / (c.excellent - c.good) ≤
          3 * (w - c.good) / (c.excellent - c.good) :=
        (div_le_div_iff_of_pos_right (by linarith)).mpr (by linarith)
      linarith
    · exact le_trans (fwdLadder_le_seven hp hf hg (le_of_lt hv2))
        (fwdLadder_ge_seven hg hw2)
  rcases le_or_lt c.fair w with hw3 | hw3
  · rcases le_or_lt c.fair v with hv3 | hv3
    · rw [fwdLadder_eval_fair hf hg hv3 (lt_of_le_of_lt hvw hw2),
        fwdLadder_eval_fair hf hg hw3 hw2]
      have h5 : 2 * (v - c.fair) / (c.good - c.fair) ≤
          2 * (w - c.fair) / (c.good - c.fair) :=
        (div_le_div_iff_of_pos_right (by linarith)).mpr (by linarith)
      linarith
    · exact le_trans (fwdLadder_le_five hp hf hg (le_of_lt hv3))
        (fwdLadder_ge_five hf hg hw3)
  rcases le_or_lt c.poor w with hw4 | hw4
  · rcases le_or_lt c.poor v with hv4 | hv4
    · rw [fwdLadder_eval_poor hp hf hg hv4 (lt_of_le_of_lt hvw hw3),
        fwdLadder_eval_poor hp hf hg hw4 hw3]
      have h5 : 3 * (v - c.poor) / (c.fair - c.poor) ≤
          3 * (w - c.poor) / (c.fair - c.poor) :=
        (div_le_div_iff_of_pos_right (by linarith)).mpr (by linarith)
      linarith
    · exact le_trans (fwdLadder_le_two hp hf hg (le_of_lt hv4))
        (fwdLadder_ge_two hp hf hg hw4)
  · rw [fwdLadder_eval_bot hp hf hg hw4,
      fwdLadder_eval_bot hp hf hg (lt_of_le_of_lt hvw hw4)]

end FwdLadder

section RevLadder

variable {c : MetricCfg} {v w : ℚ}

lemma revLadder_le_ten (hg : c.excellent < c.good) (hf : c.good < c.fair)
    (hp : c.fair < c.poor) (v : ℚ) : revLadder c v ≤ 10 := by
  unfold revLadder
  split_ifs <;>
    first
    | linarith
    | { have h5 : 3 * (c.good - v) / (c.good - c.excellent) ≤ 3 :=
          (div_le_iff₀ (by linarith)).mpr (by linarith)
        linarith }
    | { have h5 : 2 * (c.fair - v) / (c.fair - c.good) ≤ 2 :=
          (div_le_iff₀ (by linarith)).mpr (by linarith)
        linarith }
    | { have h5 : 3 * (c.poor - v) / (c.poor - c.fair) ≤ 3 :=
          (div_le_iff₀ (by linarith)).mpr (by linarith)
        linarith }

lemma revLadder_ge_seven (hg : c.excellent < c.good) (h : v ≤ c.good) :
    7 ≤ revLadder c v := by
  unfold revLadder
  split_ifs <;>
    first
    | linarith
    | { have h5 : 0 ≤ 3 * (c.good - v) / (c.good - c.excellent) :=
          div_nonneg (by linarith) (by linarith)
        linarith }

lemma revLadder_le_seven (hg : c.excellent < c.good) (hf : c.good < c.fair)
    (hp : c.fair < c.poor) (h : c.good ≤ v) : revLadder c v ≤ 7 := by
  unfold revLadder
  split_ifs <;>
    first
    | linarith
    | { have h5 : 3 * (c.good - v) / (c.good - c.excellent) ≤ 0 :=
          (div_le_iff₀ (by linarith)).mpr (by linarith)
        linarith }
    | { have h5 : 2 * (c.fair - v) / (c.fair - c.good) ≤ 2 :=
          (div_le_iff₀ (by linarith)).mpr (by linarith)
        linarith }
    | { have h5 : 3 * (c.poor - v) / (c.poor - c.fair) ≤ 3 :=
          (div_le_iff₀ (by linarith)).mpr (by linarith)
        linarith }

lemma revLadder_ge_five (hg : c.excellent < c.good) (hf : c.good < c.fair)
    (h : v ≤ c.fair) : 5 ≤ revLadder c v := by
  unfold revLadder
  split_ifs <;>
    first
    | linarith
    | { have h5 : 0 ≤ 3 * (c.good - v) / (c.good - c.excellent) :=
          div_nonneg (by linarith) (by linarith)
        linarith }
    | { have h5 : 0 ≤ 2 * (c.fair - v) / (c.fair - c.good) :=
          div_nonneg (by linarith) (by linarith)
        linarith }

lemma revLadder_le_five (hg : c.excellent < c.good) (hf : c.good < c.fair)
    (hp : c.fair < c.poor) (h : c.fair ≤ v) : revLadder c v ≤ 5 := by
  unfold revLadder
  split_ifs <;>
    first
    | linarith
    | { have h5 : 2 * (c.fair - v) / (c.fair - c.good) ≤ 0 :=
          (div_le_iff₀ (by linarith)).mpr (by linarith)
        linarith }
    | { have h5 : 3 * (c.poor - v) / (c.poor - c.fair) ≤ 3 :=
          (div_le_iff₀ (by linarith)).mpr (by linarith)
        linarith }

lemma revLadder_ge_two (hg : c.excellent < c.good) (hf : c.good < c.fair)
    (hp : c.fair < c.poor) (h : v ≤ c.poor) : 2 ≤ revLadder c v := by
  unfold revLadder
  split_ifs <;>
    first
    | linarith
    | { have h5 : 0 ≤ 3 * (c.good - v) / (c.good - c.excellent) :=
          div_nonneg (by linarith) (by linarith)
        linarith }
    | { have h5 : 0 ≤ 2 * (c.fair - v) / (c.fair - c.good) :=
          div_nonneg (by linarith) (by linarith)
        linarith }
    | { have h5 : 0 ≤ 3 * (c.poor - v) / (c.poor - c.fair) :=
          div_nonneg (by linarith) (by linarith)
        linarith }

lemma revLadder_le_two (hg : c.excellent < c.good) (hf : c.good < c.fair)
    (hp : c.fair < c.poor) (h : c.poor ≤ v) : revLadder c v ≤ 2 := by
  unfold revLadder
  split_ifs <;>
    first
    | linarith
    | { have h5 : 3 * (c.poor - v) / (c.poor - c.fair) ≤ 0 :=
          (div_le_iff₀ (by linarith)).mpr (by linarith)
        linarith }

lemma revLadder_eval_exc (h : v ≤ c.excellent) : revLadder c v = 10 := by
  unfold revLadder
  split_ifs <;> first | rfl | linarith

lemma revLadder_eval_good (hg : c.excellent < c.good) (h : v ≤ c.good)
    (h' : c.excellent < v) :
    revLadder c v = 7 + 3 * (c.good - v) / (c.good - c.excellent) := by
  unfold revLadder
  split_ifs <;> first | rfl | linarith

lemma revLadder_eval_fair (hg : c.excellent < c.good) (hf : c.good < c.fair)
    (h : v ≤ c.fair) (h' : c.good < v) :
    revLadder c v = 5 + 2 * (c.fair - v) / (c.fair - c.good) := by
  unfold revLadder
  split_ifs <;> first | rfl | linarith

lemma revLadder_eval_poor (hg : c.excellent < c.good) (hf : c.good < c.fair)
    (hp : c.fair < c.poor) (h : v ≤ c.poor) (h' : c.fair < v) :
    revLadder c v = 2 + 3 * (c.poor - v) / (c.poor - c.fair) := by
  unfold revLadder
  split_ifs <;> first | rfl | linarith

lemma revLadder_eval_bot (hg : c.excellent < c.good) (hf : c.good < c.fair)
    (hp : c.fair < c.poor) (h : c.poor < v) : revLadder c v = 1 := by
  unfold revLadder
  split_ifs <;> first | rfl | linarith

lemma revLadder_anti (hg : c.excellent < c.good) (hf : c.good < c.fair)
    (hp : c.fair < c.poor) (hvw : v ≤ w) : revLadder c w ≤ revLadder c v := by
  rcases le_or_lt v c.excellent with hv | hv
  · rw [revLadder_eval_exc hv]
    exact revLadder_le_ten hg hf hp w
  rcases le_or_lt v c.good with hv2 | hv2
  · rcases le_or_lt w c.good with hw2 | hw2
    · rw [revLadder_eval_good hg hv2 hv,
        revLadder_eval_good hg hw2 (lt_of_lt_of_le hv hvw)]
      have h5 : 3 * (c.good - w) / (c.good - c.excellent) ≤
          3 * (c.good - v) / (c.good - c.excellent) :=
        (div_le_div_iff_of_pos_right (by linarith)).mpr (by linarith)
      linarith
    · exact le_trans (revLadder_le_seven hg hf hp (le_of_lt hw2))
        (revLadder_ge_seven hg hv2)
  rcases le_or_lt v c.fair with hv3 | hv3
  · rcases le_or_lt w c.fair with hw3 | hw3
    · rw [revLadder_eval_fair hg hf hv3 hv2,
        revLadder_eval_fair hg hf hw3 (lt_of_lt_of_le hv2 hvw)]
      have h5 : 2 * (c.fair - w) / (c.fair - c.good) ≤
          2 * (c.fair - v) / (c.fair - c.good) :=
        (div_le_div_iff_of_pos_right (by linarith)).mpr (by linarith)
      linarith
    · exact le_trans (revLadder_le_five hg hf hp (le_of_lt hw3))
        (revLadder_ge_five hg hf hv3)
  rcases le_or_lt v c.poor with hv4 | hv4
  · rcases le_or_lt w c.poor with hw4 | hw4
    · rw [revLadder_eval_poor hg hf hp hv4 hv3,
        revLadder_eval_poor hg hf hp hw4 (lt_of_lt_of_le hv3 hvw)]
      have h5 : 3 * (c.poor - w) / (c.poor - c.fair) ≤
          3 * (c.poor - v) / (c.poor - c.fair) :=
        (div_le_div_iff_of_pos_right (by linarith)).mpr (by linarith)
      linarith
    · exact le_trans (revLadder_le_two hg hf hp (le_of_lt hw4))
        (revLadder_ge_two hg hf hp hv4)
  · rw [revLadder_eval_bot hg hf hp hv4,
      revLadder_eval_bot hg hf hp (lt_of_lt_of_le hv4 hvw)]

end RevLadder

section CapLadder

variable {c : MetricCfg} {v w : ℚ}

lemma scoreMetricCap_eq_fwd (h : c.poor ≤ v) : scoreMetricCap c v = fwdLadder c v := by
  unfold scoreMetricCap fwdLadder
  split_ifs <;> first | rfl | linarith

lemma scoreMetricCap_eval_bot (hp : c.poor < c.fair) (hf : c.fair < c.good)
    (hg : c.good < c.excellent) (h0 : 0 < c.poor) (h : v < c.poor) :
    scoreMetricCap c v = 1 + v / c.poor := by
  unfold scoreMetricCap
  split_ifs <;> first | rfl | linarith

lemma scoreMetricCap_eval_bot_nonpos (hp : c.poor < c.fair) (hf : c.fair < c.good)
    (hg : c.good < c.excellent) (h0 : ¬ 0 < c.poor) (h : v < c.poor) :
    scoreMetricCap c v = 1 := by
  unfold scoreMetricCap
  split_ifs <;> first | rfl | linarith

lemma scoreMetricCap_le_two (hp : c.poor < c.fair) (hf : c.fair < c.good)
    (hg : c.good < c.excellent) (h : v ≤ c.poor) : scoreMetricCap c v ≤ 2 := by
  unfold scoreMetricCap
  split_ifs <;>
    first
    | linarith
    | { have h5 : 3 * (v - c.poor) / (c.fair - c.poor) ≤ 0 :=
          (div_le_iff₀ (by linarith)).mpr (by linarith)
        linarith }
    | { have h5 : v / c.poor ≤ 1 := (div_le_one (by linarith)).mpr (by linarith)
        linarith }

lemma scoreMetricCap_mono (hp : c.poor < c.fair) (hf : c.fair < c.good)
    (hg : c.good < c.excellent) (hvw : v ≤ w) :
    scoreMetricCap c v ≤ scoreMetricCap c w := by
  rcases le_or_lt c.poor v with hv | hv
  · rw [scoreMetricCap_eq_fwd hv, scoreMetricCap_eq_fwd (le_trans hv hvw)]
    exact fwdLadder_mono hp hf hg hvw
  rcases le_or_lt c.poor w with hw | hw
  · rw [scoreMetricCap_eq_fwd hw]
    exact le_trans (scoreMetricCap_le_two hp hf hg (le_of_lt hv))
      (fwdLadder_ge_two hp hf hg hw)
  · by_cases h0 : 0 < c.poor
    · rw [scoreMetricCap_eval_bot hp hf hg h0 hv,
        scoreMetricCap_eval_bot hp hf hg h0 hw]
      have h5 : v / c.poor ≤ w / c.poor :=
        (div_le_div_iff_of_pos_right h0).mpr hvw
      linarith
    · rw [scoreMetricCap_eval_bot_nonpos hp hf hg h0 hv,
        scoreMetricCap_eval_bot_nonpos hp hf hg h0 hw]

end CapLadder

section Helpers

lemma clamp_ge_one (x : ℚ) : 1 ≤ clamp x := le_min (by norm_num) (le_max_left 1 x)

lemma clamp_le_ten (x : ℚ) : clamp x ≤ 10 := min_le_left _ _

lemma scoreCategory_bounds (sc : MetricCfg → ℚ → ℚ) (cfg : List (String × MetricCfg))
    (r : Record) (s : ℚ) (h : scoreCategory sc cfg r = some s) : 1 ≤ s ∧ s ≤ 10 := by
  unfold scoreCategory at h
  rcases Option.map_eq_some'.mp h with ⟨t, _, rfl⟩
  exact ⟨clamp_ge_one t, clamp_le_ten t⟩

lemma categoryTotal_isSome (sc : MetricCfg → ℚ → ℚ) (cfg : List (String × MetricCfg))
    (r : Record) :
    (categoryTotal sc cfg r).isSome ↔ ∀ p ∈ cfg, (r.lookup p.1).isSome := by
  induction cfg with
  | nil => simp [categoryTotal]
  | cons q rest ih =>
    rw [List.forall_mem_cons, ← ih]
    cases hl : r.lookup q.1 <;> cases ht : categoryTotal sc rest r <;>
      simp [categoryTotal, hl, ht]

lemma getLast_one {α : Type} (a : α) (h : [a] ≠ []) : [a].getLast h = a := rfl

lemma getLast_two {α : Type} (a b : α) (h : [a, b] ≠ []) : [a, b].getLast h = b := rfl

lemma specChain_some_eq_std (c : MetricCfg) (v s : ℚ) (h : specChain c v = some s) :
    scoreMetricStd c v = s := by
  unfold specChain better favDist at h
  unfold scoreMetricStd
  cases hc : c.reverse with
  | true =>
    simp only [hc, if_true] at h ⊢
    unfold revLadder
    split_ifs at h ⊢ <;> first | exact Option.some.inj h | cases h
  | false =>
    simp only [hc, Bool.false_eq_true, if_false] at h ⊢
    unfold fwdLadder
    split_ifs at h ⊢ <;> first | exact Option.some.inj h | cases h

lemma specChain_some_eq_cap (c : MetricCfg) (v s : ℚ) (hrev : c.reverse = false)
    (h : specChain c v = some s) : scoreMetricCap c v = s := by
  unfold specChain better favDist at h
  simp only [hrev, Bool.false_eq_true, if_false] at h
  unfold scoreMetricCap
  split_ifs at h ⊢ <;> first | exact Option.some.inj h | cases h

end Helpers

section BotWrappers

lemma scoreMetricOf_bot_cap (c : MetricCfg) (hrev : c.reverse = false) (h0 : 0 < c.poor)
    (hp : c.poor < c.fair) (hf : c.fair < c.good) (hg : c.good < c.excellent)
    (v : ℚ) (hv : ¬ better c v c.poor) : scoreMetricOf (true, c) v = 1 + v / c.poor := by
  simp only [better, hrev, Bool.false_eq_true, if_false] at hv
  show scoreMetricCap c v = _
  exact scoreMetricCap_eval_bot hp hf hg h0 (not_le.mp hv)

lemma scoreMetricOf_bot_fwd (c : MetricCfg) (hrev : c.reverse = false)
    (hp : c.poor < c.fair) (hf : c.fair < c.good) (hg : c.good < c.excellent)
    (v : ℚ) (hv : ¬ better c v c.poor) : scoreMetricOf (false, c) v = 1 := by
  simp only [better, hrev, Bool.false_eq_true, if_false] at hv
  show scoreMetricStd c v = 1
  unfold scoreMetricStd
  rw [hrev]
  simpa using fwdLadder_eval_bot hp hf hg (not_le.mp hv)

lemma scoreMetricOf_bot_rev (c : MetricCfg) (hrev : c.reverse = true)
    (hg : c.excellent < c.good) (hf : c.good < c.fair) (hp : c.fair < c.poor)
    (v : ℚ) (hv : ¬ better c v c.poor) : scoreMetricOf (false, c) v = 1 := by
  simp only [better, hrev, if_true] at hv
  show scoreMetricStd c v = 1
  unfold scoreMetricStd
  rw [hrev]
  simpa using revLadder_eval_bot hg hf hp (not_le.mp hv)

end BotWrappers

/-- C1: for every metric configuration of the four category scorers and every
value covered by the spec's four favorable-direction segments (at least as
favorable as `poor`), the per-metric sub-score equals the piecewise-linear
value prescribed by the spec, for forward and reverse metrics alike. -/
theorem metric_score_follows_spec_ladder :
    ∀ e ∈ allMetricConfigs, ∀ v s : ℚ, specChain e.2 v = some s → scoreMetricOf e v = s := by
  intro e he v s h
  simp only [allMetricConfigs, List.mem_cons, List.not_mem_nil, or_false] at he
  rcases he with rfl | rfl | rfl | rfl | rfl | rfl | rfl | rfl | rfl | rfl | rfl | rfl |
    rfl | rfl | rfl | rfl <;>
    first
    | exact specChain_some_eq_cap _ _ _ rfl h
    | exact specChain_some_eq_std _ _ _ h

/-- Witness for C1: `npl_ratio` (reverse) at 0.75 sits in the good→excellent
segment and scores 7 + 3·(1−0.75)/(1−0.5) = 8.5. -/
theorem metric_score_follows_spec_ladder_witness :
    scoreMetricOf (false, nplCfg) 0.75 = 8.5 :=
  metric_score_follows_spec_ladder (false, nplCfg) (by simp [allMetricConfigs]) 0.75 8.5
    (by norm_num [specChain, better, favDist, nplCfg])

/-- C2 counterexample: `return_on_assets` is a higher-is-better metric of the
profitability category with poor = 0.4, yet at value 0.2 (worse than poor) its
sub-score is flat 1, not the claimed 1 + 0.2/0.4 = 1.5. -/
theorem below_poor_asymmetry_counterexample :
    (false, roaCfg) ∈ allMetricConfigs ∧ roaCfg.reverse = false ∧
    (0.2 : ℚ) < roaCfg.poor ∧ scoreMetricOf (false, roaCfg) 0.2 = 1 ∧
    (1 : ℚ) ≠ 1 + 0.2 / roaCfg.poor := by
  refine ⟨by simp [allMetricConfigs], rfl, by norm_num [roaCfg], ?_, by norm_num [roaCfg]⟩
  norm_num [scoreMetricOf, scoreMetricStd, fwdLadder, roaCfg]

/-- C2 amended: below the poor breakpoint the sub-score is flat 1 everywhere
except in the capitalization scorer, whose metrics (all higher-is-better,
with positive poor breakpoints) score 1 + value/poor instead. -/
theorem below_poor_score_amended :
    ∀ e ∈ allMetricConfigs, ∀ v : ℚ, ¬ better e.2 v e.2.poor →
      scoreMetricOf e v = if e.1 then 1 + v / e.2.poor else 1 := by
  intro e he v hv
  simp only [allMetricConfigs, List.mem_cons, List.not_mem_nil, or_false] at he
  rcases he with rfl | rfl | rfl | rfl | rfl | rfl | rfl | rfl | rfl | rfl | rfl | rfl |
    rfl | rfl | rfl | rfl <;>
    first
    | exact scoreMetricOf_bot_cap _ rfl
        (by norm_num [carCfg, tier1Cfg, levCfg])
        (by norm_num [carCfg, tier1Cfg, levCfg])
        (by norm_num [carCfg, tier1Cfg, levCfg])
        (by norm_num [carCfg, tier1Cfg, levCfg]) v hv
    | exact scoreMetricOf_bot_fwd _ rfl
        (by norm_num [covCfg, roaCfg, roeCfg, nimCfg, epsCfg, lcrCfg, nsfrCfg, cashCfg])
        (by norm_num [covCfg, roaCfg, roeCfg, nimCfg, epsCfg, lcrCfg, nsfrCfg, cashCfg])
        (by norm_num [covCfg, roaCfg, roeCfg, nimCfg, epsCfg, lcrCfg, nsfrCfg, cashCfg]) v hv
    | exact scoreMetricOf_bot_rev _ rfl
        (by norm_num [nplCfg, llpCfg, aclCfg, ctiCfg, ltdCfg])
        (by norm_num [nplCfg, llpCfg, aclCfg, ctiCfg, ltdCfg])
        (by norm_num [nplCfg, llpCfg, aclCfg, ctiCfg, ltdCfg]) v hv

/-- Witness for C2 (amended): `leverage_ratio` (capitalization, poor = 3) at
value 1.5 scores 1 + 1.5/3 = 1.5, while `coverage_ratio` (asset quality,
higher-is-better, poor = 60) at value 30 scores flat 1. -/
theorem below_poor_score_amended_witness :
    scoreMetricOf (true, levCfg) 1.5 = 1 + 1.5 / levCfg.poor ∧
    scoreMetricOf (false, covCfg) 30 = 1 := by
  constructor
  · have h := below_poor_score_amended (true, levCfg) (by simp [allMetricConfigs]) 1.5
      (by norm_num [better, levCfg])
    simpa using h
  · have h := below_poor_score_amended (false, covCfg) (by simp [allMetricConfigs]) 30
      (by norm_num [better, covCfg])
    simpa using h

/-- C3: for every metric configuration of the four category scorers, the
per-metric sub-score is monotone in the favorable direction: if `w` is at
least as favorable as `v`, its sub-score is at least as large. -/
theorem metric_score_monotone :
    ∀ e ∈ allMetricConfigs, ∀ v w : ℚ,
      (if e.2.reverse then w ≤ v else v ≤ w) →
      scoreMetricOf e v ≤ scoreMetricOf e w := by
  intro e he v w hvw
  simp only [allMetricConfigs, List.mem_cons, List.not_mem_nil, or_false] at he
  rcases he with rfl | rfl | rfl | rfl | rfl | rfl | rfl | rfl | rfl | rfl | rfl | rfl |
    rfl | rfl | rfl | rfl
  · exact scoreMetricCap_mono (by norm_num [carCfg]) (by norm_num [carCfg]) (by norm_num [carCfg]) hvw
  · exact scoreMetricCap_mono (by norm_num [tier1Cfg]) (by norm_num [tier1Cfg]) (by norm_num [tier1Cfg]) hvw
  · exact scoreMetricCap_mono (by norm_num [levCfg]) (by norm_num [levCfg]) (by norm_num [levCfg]) hvw
  · exact revLadder_anti (by norm_num [nplCfg]) (by norm_num [nplCfg]) (by norm_num [nplCfg]) hvw
  · exact revLadder_anti (by norm_num [llpCfg]) (by norm_num [llpCfg]) (by norm_num [llpCfg]) hvw
  · exact fwdLadder_mono (by norm_num [covCfg]) (by norm_num [covCfg]) (by norm_num [covCfg]) hvw
  · exact revLadder_anti (by norm_num [aclCfg]) (by norm_num [aclCfg]) (by norm_num [aclCfg]) hvw
  · exact fwdLadder_mono (by norm_num [roaCfg]) (by norm_num [roaCfg]) (by norm_num [roaCfg]) hvw
  · exact fwdLadder_mono (by norm_num [roeCfg]) (by norm_num [roeCfg]) (by norm_num [roeCfg]) hvw
  · exact fwdLadder_mono (by norm_num [nimCfg]) (by norm_num [nimCfg]) (by norm_num [nimCfg]) hvw
  · exact revLadder_anti (by norm_num [ctiCfg]) (by norm_num [ctiCfg]) (by norm_num [ctiCfg]) hvw
  · exact fwdLadder_mono (by norm_num [epsCfg]) (by norm_num [epsCfg]) (by norm_num [epsCfg]) hvw
  · exact fwdLadder_mono (by norm_num [lcrCfg]) (by norm_num [lcrCfg]) (by norm_num [lcrCfg]) hvw
  · exact fwdLadder_mono (by norm_num [nsfrCfg]) (by norm_num [nsfrCfg]) (by norm_num [nsfrCfg]) hvw
  · exact revLadder_anti (by norm_num [ltdCfg]) (by norm_num [ltdCfg]) (by norm_num [ltdCfg]) hvw
  · exact fwdLadder_mono (by norm_num [cashCfg]) (by norm_num [cashCfg]) (by norm_num [cashCfg]) hvw

/-- Witness for C3: for the reverse metric `npl_ratio`, the more favorable
value 1 scores at least as high as the less favorable value 2. -/
theorem metric_score_monotone_witness :
    scoreMetricOf (false, nplCfg) 2 ≤ scoreMetricOf (false, nplCfg) 1 :=
  metric_score_monotone (false, nplCfg) (by simp [allMetricConfigs]) 2 1
    (by norm_num [nplCfg])

/-- C4: for every metric configuration of the four category scorers, the
sub-score at the `good`, `fair` and `poor` breakpoints is exactly 7, 5 and 2. -/
theorem breakpoint_scores_exact :
    ∀ e ∈ allMetricConfigs,
      scoreMetricOf e e.2.good = 7 ∧ scoreMetricOf e e.2.fair = 5 ∧
      scoreMetricOf e e.2.poor = 2 := by
  intro e he
  simp only [allMetricConfigs, List.mem_cons, List.not_mem_nil, or_false] at he
  rcases he with rfl | rfl | rfl | rfl | rfl | rfl | rfl | rfl | rfl | rfl | rfl | rfl |
    rfl | rfl | rfl | rfl <;>
    refine ⟨?_, ?_, ?_⟩ <;>
    norm_num [scoreMetricOf, scoreMetricCap, scoreMetricStd, fwdLadder, revLadder,
      carCfg, tier1Cfg, levCfg, nplCfg, llpCfg, covCfg, aclCfg, roaCfg, roeCfg, nimCfg,
      ctiCfg, epsCfg, lcrCfg, nsfrCfg, ltdCfg, cashCfg]

/-- Witness for C4: `npl_ratio` = 3.0, a reverse metric exactly at its poor
breakpoint, scores exactly 2. -/
theorem breakpoint_scores_exact_witness :
    scoreMetricOf (false, nplCfg) nplCfg.poor = 2 ∧ nplCfg.poor = 3 :=
  ⟨(breakpoint_scores_exact (false, nplCfg) (by simp [allMetricConfigs])).2.2,
   by norm_num [nplCfg]⟩

section SampleEval

lemma sample_cap : calculate_capitalization_score sampleRecord = some 10 := by
  simp [calculate_capitalization_score, scoreCategory, categoryTotal, capConfig,
    sampleRecord, scoreMetricCap, carCfg, tier1Cfg, levCfg, clamp, List.lookup]
  all_goals norm_num

lemma sample_asset : calculate_asset_quality_score sampleRecord = some 10 := by
  simp [calculate_asset_quality_score, scoreCategory, categoryTotal, assetConfig,
    sampleRecord, scoreMetricStd, fwdLadder, revLadder, nplCfg, llpCfg, covCfg, aclCfg,
    clamp, List.lookup]
  all_goals norm_num

lemma sample_profit : calculate_profitability_score sampleRecord = some 10 := by
  simp [calculate_profitability_score, scoreCategory, categoryTotal, profitConfig,
    sampleRecord, scoreMetricStd, fwdLadder, revLadder, roaCfg, roeCfg, nimCfg, ctiCfg,
    epsCfg, clamp, List.lookup]
  all_goals norm_num

lemma sample_liq : calculate_liquidity_score sampleRecord = some 10 := by
  simp [calculate_liquidity_score, scoreCategory, categoryTotal, liquidityConfig,
    sampleRecord, scoreMetricStd, fwdLadder, revLadder, lcrCfg, nsfrCfg, ltdCfg, cashCfg,
    clamp, List.lookup]
  all_goals norm_num

lemma sample_overall :
    calculate_overall_score [sampleRecord] (List.cons_ne_nil _ _) = some 10 := by
  have hl : ([sampleRecord] : List Record).getLast (List.cons_ne_nil _ _) = sampleRecord := rfl
  simp only [calculate_overall_score, hl, sample_cap, sample_asset, sample_profit,
    sample_liq, Option.some_bind]
  norm_num [scoreOverallWeighted, clamp]

end SampleEval

/-- C5: every category score and the weighted overall score, whenever they
are produced, lie in the closed interval [1, 10], whatever the record's
metric values. -/
theorem scores_within_range :
    (∀ r s, calculate_capitalization_score r = some s → 1 ≤ s ∧ s ≤ 10) ∧
    (∀ r s, calculate_asset_quality_score r = some s → 1 ≤ s ∧ s ≤ 10) ∧
    (∀ r s, calculate_profitability_score r = some s → 1 ≤ s ∧ s ≤ 10) ∧
    (∀ r s, calculate_liquidity_score r = some s → 1 ≤ s ∧ s ≤ 10) ∧
    (∀ (bank : List Record) (h : bank ≠ []) s,
      calculate_overall_score bank h = some s → 1 ≤ s ∧ s ≤ 10) := by
  refine ⟨fun r s h => scoreCategory_bounds _ _ _ _ h,
    fun r s h => scoreCategory_bounds _ _ _ _ h,
    fun r s h => scoreCategory_bounds _ _ _ _ h,
    fun r s h => scoreCategory_bounds _ _ _ _ h, ?_⟩
  intro bank hne s h
  simp only [calculate_overall_score] at h
  rcases Option.bind_eq_some.mp h with ⟨c, hc, h⟩
  rcases Option.bind_eq_some.mp h with ⟨a, ha, h⟩
  rcases Option.bind_eq_some.mp h with ⟨p, hp, h⟩
  rcases Option.bind_eq_some.mp h with ⟨l, hl, h⟩
  obtain rfl := Option.some.inj h
  exact ⟨clamp_ge_one _, clamp_le_ten _⟩

/-- Witness for C5: the all-excellent sample record scores overall 10,
which lies in [1, 10]. -/
theorem scores_within_range_witness : (1 : ℚ) ≤ 10 ∧ (10 : ℚ) ≤ 10 :=
  scores_within_range.2.2.2.2 [sampleRecord] (List.cons_ne_nil _ _) 10 sample_overall

/-- C6 counterexample: at category scores (8, 6, 7, 9) the weighted overall
form yields 7.35, not the claimed 7.25. -/
theorem overall_weighted_value_counterexample :
    scoreOverallWeighted 8 6 7 9 = 7.35 ∧ (7.35 : ℚ) ≠ 7.25 := by
  constructor
  · norm_num [scoreOverallWeighted, clamp]
  · norm_num

/-- C6 amended: the weighted overall form is the clamp of
0.25/0.30/0.25/0.20-weighted category scores and the overview form is their
unweighted mean; at (8, 6, 7, 9) they yield 7.35 and 7.5 respectively,
which differ. -/
theorem two_overall_forms_amended :
    (∀ c a p l : ℚ, scoreOverallWeighted c a p l =
      clamp (c * 0.25 + a * 0.30 + p * 0.25 + l * 0.20)) ∧
    (∀ c a p l : ℚ, scoreOverallMean c a p l = (c + a + p + l) / 4) ∧
    scoreOverallWeighted 8 6 7 9 = 7.35 ∧ scoreOverallMean 8 6 7 9 = 7.5 ∧
    scoreOverallWeighted 8 6 7 9 ≠ scoreOverallMean 8 6 7 9 := by
  refine ⟨fun _ _ _ _ => rfl, fun _ _ _ _ => rfl,
    by norm_num [scoreOverallWeighted, clamp],
    by norm_num [scoreOverallMean],
    by norm_num [scoreOverallWeighted, scoreOverallMean, clamp]⟩

/-- C7: the score interpreter implements the descending rating table
AAA/AA/A/BBB/BB/B/CCC with fixed descriptions, totally on all scores, and
sends 8.5 to AAA and 8.49 to AA. -/
theorem interpret_score_table :
    (∀ s : ℚ,
      (8.5 ≤ s →
        get_score_interpretation s = ⟨"AAA", "Excellent Credit Quality", "green"⟩) ∧
      (7.5 ≤ s → s < 8.5 →
        get_score_interpretation s = ⟨"AA", "Very Good Credit Quality", "green"⟩) ∧
      (6.5 ≤ s → s < 7.5 →
        get_score_interpretation s = ⟨"A", "Good Credit Quality", "blue"⟩) ∧
      (5.5 ≤ s → s < 6.5 →
        get_score_interpretation s = ⟨"BBB", "Fair Credit Quality", "orange"⟩) ∧
      (4.5 ≤ s → s < 5.5 →
        get_score_interpretation s = ⟨"BB", "Speculative Credit Quality", "orange"⟩) ∧
      (3.5 ≤ s → s < 4.5 →
        get_score_interpretation s = ⟨"B", "Highly Speculative", "red"⟩) ∧
      (s < 3.5 →
        get_score_interpretation s = ⟨"CCC", "Poor Credit Quality", "red"⟩)) ∧
    get_score_interpretation 8.5 = ⟨"AAA", "Excellent Credit Quality", "green"⟩ ∧
    get_score_interpretation 8.49 = ⟨"AA", "Very Good Credit Quality", "green"⟩ := by
  refine ⟨fun s => ?_, by norm_num [get_score_interpretation],
    by norm_num [get_score_interpretation]⟩
  refine ⟨?_, ?_, ?_, ?_, ?_, ?_, ?_⟩ <;>
    { intros
      unfold get_score_interpretation
      split_ifs <;> first | rfl | { exfalso; linarith } }

/-- Witness for C7: a score of 9 is rated AAA. -/
theorem interpret_score_table_witness :
    get_score_interpretation 9 = ⟨"AAA", "Excellent Credit Quality", "green"⟩ :=
  (interpret_score_table.1 9).1 (by norm_num)

/-- C8: a category scorer returns a score exactly when every metric key its
configuration requires is present in the record; a missing key yields `none`
(the propagated error), never a defaulted score. -/
theorem missing_metric_propagates :
    ∀ r : Record,
      ((calculate_capitalization_score r).isSome ↔
        ∀ p ∈ capConfig, (r.lookup p.1).isSome) ∧
      ((calculate_asset_quality_score r).isSome ↔
        ∀ p ∈ assetConfig, (r.lookup p.1).isSome) ∧
      ((calculate_profitability_score r).isSome ↔
        ∀ p ∈ profitConfig, (r.lookup p.1).isSome) ∧
      ((calculate_liquidity_score r).isSome ↔
        ∀ p ∈ liquidityConfig, (r.lookup p.1).isSome) := by
  intro r
  refine ⟨?_, ?_, ?_, ?_⟩
  · unfold calculate_capitalization_score scoreCategory
    rw [Option.isSome_map']
    exact categoryTotal_isSome _ _ _
  · unfold calculate_asset_quality_score scoreCategory
    rw [Option.isSome_map']
    exact categoryTotal_isSome _ _ _
  · unfold calculate_profitability_score scoreCategory
    rw [Option.isSome_map']
    exact categoryTotal_isSome _ _ _
  · unfold calculate_liquidity_score scoreCategory
    rw [Option.isSome_map']
    exact categoryTotal_isSome _ _ _

/-- Witness for C8: the sample record holds every capitalization key, so a
capitalization score is produced. -/
theorem missing_metric_propagates_witness :
    (calculate_capitalization_score sampleRecord).isSome :=
  (missing_metric_propagates sampleRecord).1.mpr
    (by simp [capConfig, sampleRecord, List.lookup])

/-- C9: the overall score and the four category scores depend only on the
last record of the historical sequence: histories agreeing on their last
record produce identical scores. -/
theorem scores_depend_only_on_last :
    ∀ (l1 l2 : List Record) (h1 : l1 ≠ []) (h2 : l2 ≠ []),
      l1.getLast h1 = l2.getLast h2 →
      calculate_overall_score l1 h1 = calculate_overall_score l2 h2 ∧
      calculate_category_scores l1 h1 = calculate_category_scores l2 h2 := by
  intro l1 l2 h1 h2 hlast
  constructor <;>
    simp only [calculate_overall_score, calculate_category_scores, hlast]

/-- Witness for C9: prepending an unrelated earlier record to the history
changes neither the overall score nor the category scores. -/
theorem scores_depend_only_on_last_witness :
    calculate_overall_score [[("npl_ratio", 9)], sampleRecord] (List.cons_ne_nil _ _) =
      calculate_overall_score [sampleRecord] (List.cons_ne_nil _ _) ∧
    calculate_category_scores [[("npl_ratio", 9)], sampleRecord] (List.cons_ne_nil _ _) =
      calculate_category_scores [sampleRecord] (List.cons_ne_nil _ _) :=
  scores_depend_only_on_last _ _ _ _ rfl

/-- C10: whenever the liquidity-runway estimate produces a value, that value
is an integer number of days between 7 and 180 inclusive. -/
theorem liquidity_runway_range :
    ∀ (r : Record) (z : ℤ), calculate_liquidity_runway r = some z →
      7 ≤ z ∧ z ≤ 180 := by
  intro r z h
  unfold calculate_liquidity_runway at h
  cases hc : r.lookup "cash_ratio" <;>
    cases hl : r.lookup "liquidity_coverage_ratio" <;>
      simp only [hc, hl] at h
  · exact Option.noConfusion h
  · exact Option.noConfusion h
  · exact Option.noConfusion h
  · obtain rfl := Option.some.inj h
    exact ⟨le_max_left _ _, max_le (by norm_num) (min_le_left _ _)⟩

/-- Witness for C10: the sample record (cash ratio 12, LCR 130) yields an
80-day runway, inside [7, 180]. -/
theorem liquidity_runway_range_witness : (7 : ℤ) ≤ 80 ∧ (80 : ℤ) ≤ 180 :=
  liquidity_runway_range sampleRecord 80
    (by simp [calculate_liquidity_runway, sampleRecord, List.lookup]
        norm_num [ratTrunc])
